import Mathlib

/- Shallow embedding of the templar library.

   Source files embedded here:
   * parser.py      : parse_keywords (regex scan for markers of the form
     --name--, non-greedy, returned as a set)
   * evaluator.py   : evaluate_keyords, _evaluate_object, and the type
     aliases Convertible / Evaluable / Representable
   * __init__.py    : replace_keyword and resolve

   Python values appearing in templates and value sets are modelled by the
   inductive type Value below.  Python dynamic errors are modelled by an
   Except monad:

   * evaluate_keyords calls _evaluate_object(values[kw], path) without the
     required third positional argument fail, so CPython raises TypeError at
     that call site whenever the dotted branch fires; the model returns
     PyErr.typeError there.
   * _evaluate_object's sequence-index branch reads the undefined name
     isintance (a typo for isinstance), so the branch raises NameError as
     soon as a missing attribute segment is numeric; the model returns
     PyErr.nameError there.
   * _evaluate_object raises AttributeError (PyErr.attributeError) on a
     non-traversable, non-numeric segment when fail is True; the resolver's
     own ValueError / sentinel lines exist in the source but are dead code,
     because the test guarding them already raises (next bullet).

   * the representability test isinstance(val, Representable) cannot run:
     Representable is declared with a PEP 695 type statement, so it is a
     TypeAliasType, which isinstance() rejects as its second argument; the
     test raises TypeError before the inspected value matters, and the
     ValueError / sentinel policy behind it is unreachable (modelled by
     isinstanceRepresentable below).
   * the package itself does not import: __init__.py names evaluate_keywords
     and parse_template, but the defined functions are evaluate_keyords and
     parse_keywords, so import raises ImportError (modelled by
     templarImport); resolveCall models a call through the package as it
     stands, while resolve models the function body alone, with the import
     names repaired to the functions the source defines.

   Method attributes of builtin containers
   (such as dict.items) are not modelled: only the explicit attributes of
   an object value (constructor Value.obj) answer hasattr/getattr, and no
   claim involves a path segment naming a builtin method.  The repr of an
   object value abstracts the memory address CPython would print. -/

inductive PyErr where
  | typeError
  | valueError
  | nameError
  | attributeError
  | importError
deriving DecidableEq, Repr

inductive Value where
  | str : String → Value
  | int : Int → Value
  | float : String → Value
  | bool : Bool → Value
  | list : List Value → Value
  | dict : List (String × Value) → Value
  | obj : List (String × Value) → Value

/-- The fallback sentinel text r"N\A" from evaluator.py. -/
def sentinel : String := "N\\A"

/-- Association-list lookup, the model of Python dict indexing values[k]
(and of the membership test k in values). -/
def lookup (vs : List (String × Value)) (k : String) : Option Value :=
  (vs.find? (fun p => p.1 == k)).map (fun p => p.2)

/-- Python dict assignment evaluated[k] = v: overwrite in place when the key
is present, append otherwise. -/
def dinsert (ev : List (String × Value)) (k : String) (v : Value) :
    List (String × Value) :=
  if ev.any (fun p => p.1 == k) then
    ev.map (fun p => if p.1 == k then (k, v) else p)
  else ev ++ [(k, v)]

/-- Model of the test isinstance(val, Representable) in evaluator.py.
Representable is a PEP 695 type-statement alias, a TypeAliasType, which
isinstance() rejects as its second argument regardless of the inspected
value: the call raises TypeError before the value is examined.  The
intended membership test (str, int, float — under which a bool would pass
as an int subclass) never runs, and the ValueError / sentinel policy
guarded by the test is unreachable. -/
def isinstanceRepresentable : Value → Except PyErr Bool :=
  fun _ => .error .typeError

/-- A single-quote character, used by the Python repr of strings. -/
def pyQuote : String := String.singleton (Char.ofNat 39)

mutual

/-- Model of Python repr on the modelled value universe.  String escaping is
not modelled (no claim involves a string needing escapes), and the repr of
an object value abstracts the memory address CPython would print. -/
def pyRepr : Value → String
  | .str s => pyQuote ++ s ++ pyQuote
  | .int n => toString n
  | .float f => f
  | .bool b => if b then "True" else "False"
  | .list xs => "[" ++ String.intercalate (", ") (pyReprList xs) ++ "]"
  | .dict kvs => "\x7b" ++ String.intercalate (", ") (pyReprPairs kvs) ++ "\x7d"
  | .obj _ => "<object>"

def pyReprList : List Value → List String
  | [] => []
  | v :: vs => pyRepr v :: pyReprList vs

def pyReprPairs : List (String × Value) → List String
  | [] => []
  | (k, v) :: vs => (pyQuote ++ k ++ pyQuote ++ ": " ++ pyRepr v) :: pyReprPairs vs

end

/-- Model of Python str(): identity on strings, repr on containers, the
usual text forms on the scalar types. -/
def pyStr : Value → String
  | .str s => s
  | v => pyRepr v

/-- Python runtime types relevant to resolve. -/
inductive PyType where
  | str
  | int
  | float
  | bool
  | list
  | dict
  | obj
deriving DecidableEq, Repr

def pyTypeOf : Value → PyType
  | .str _ => .str
  | .int _ => .int
  | .float _ => .float
  | .bool _ => .bool
  | .list _ => .list
  | .dict _ => .dict
  | .obj _ => .obj

/-- Model of t_type(replaced) in resolve: calling the template's type on the
rewritten text.  str(text) is the text; list(text) is the list of its
characters, each a one-character string; dict(text) raises ValueError unless
the text is empty (a dict template always stringifies to a brace-delimited,
hence non-empty, text).  Other types do not arise for a Convertible
template. -/
def reconstruct (t : PyType) (s : String) : Except PyErr Value :=
  match t with
  | .str => .ok (.str s)
  | .list => .ok (.list (s.data.map (fun c => .str (String.singleton c))))
  | .dict => if s = "" then .ok (.dict []) else .error .valueError
  | _ => .error .typeError

/-- Scan for the closing delimiter of the regex fragment (.*?)-- applied to
the text after an opening delimiter: the lazy group takes the shortest text
up to the next occurrence of the two dashes, and the dot cannot cross a
newline.  Returns the captured characters and the text after the close. -/
def scanClose : List Char → Option (List Char × List Char)
  | '-' :: '-' :: rest => some ([], rest)
  | '\n' :: _ => none
  | c :: rest => (scanClose rest).map (fun p => (c :: p.1, p.2))
  | [] => none

/-- Model of re.findall applied to the pattern --(.*?)-- in parser.py and
resolve: the captured marker names, leftmost first.  When no close is found
for an opening pair the engine advances one position and rescans. -/
def findall : List Char → List (List Char)
  | '-' :: '-' :: rest =>
    match h : scanClose rest with
    | some (n, r) => n :: findall r
    | none => findall ('-' :: rest)
  | _ :: rest => findall rest
  | [] => []
termination_by l => l.length
decreasing_by
  · have hb : ∀ (l2 n2 r2 : List Char),
        scanClose l2 = some (n2, r2) → r2.length < l2.length := by
      intro l2
      induction l2 using scanClose.induct with
      | case1 rest =>
        intro n2 r2 hs
        simp [scanClose] at hs
        simp [hs.2]
        omega
      | case2 rest =>
        intro n2 r2 hs
        simp [scanClose] at hs
      | case3 c rest hp1 hp2 ih =>
        intro n2 r2 hs
        rw [scanClose] at hs
        · rcases hrec : scanClose rest with _ | ⟨n3, r3⟩
          · rw [hrec] at hs; simp at hs
          · rw [hrec] at hs
            simp at hs
            have := ih n3 r3 hrec
            simp [← hs.2]
            omega
        · exact hp1
        · exact hp2
      | case4 => intro n2 r2 hs; simp [scanClose] at hs
    have := hb rest n r h
    simp
    omega
  · simp
  · simp

/-- Model of parse_keywords from parser.py: the set of distinct captured
marker names.  Python set iteration order is unspecified; the model
enumerates the distinct names (dedup), and no observable result of the
claims depends on the enumeration order. -/
def parse_keywords (s : String) : List String :=
  ((findall s.data).map String.mk).dedup

/-- Model of keyword.split(chr 46, maxsplit 1) on a keyword containing a
dot: the characters before the first dot and the characters after it. -/
def splitOnce : List Char → List Char × List Char
  | [] => ([], [])
  | '.' :: rest => ([], rest)
  | c :: rest => ((splitOnce rest).1.cons c, (splitOnce rest).2)

/-- Model of path.split on the dot character: the list of segments. -/
def splitDots : List Char → List (List Char)
  | [] => [[]]
  | '.' :: rest => [] :: splitDots rest
  | c :: rest =>
    match splitDots rest with
    | s :: ss => (c :: s) :: ss
    | [] => [[c]]

/-- Model of str.isnumeric restricted to the ASCII inputs of the claims. -/
def isnumericChars (l : List Char) : Bool :=
  !l.isEmpty && l.all (fun c => c.isDigit)

/-- Model of getattr (and, via isSome, hasattr) on the modelled value
universe: only an object value exposes named attributes.  Builtin method
attributes are not modelled (no claim names one in a path). -/
def getattrV (obj : Value) (a : List Char) : Option Value :=
  match obj with
  | .obj fields => lookup fields (String.mk a)
  | _ => none

/-- Segment loop of _evaluate_object from evaluator.py.  When a segment is
not an attribute and is numeric, the source evaluates the undefined name
isintance, so the loop raises NameError at that point (for either value of
fail); when the segment is not an attribute and not numeric it raises
AttributeError under fail and otherwise returns the sentinel. -/
def evalObjectAux : Value → List (List Char) → Bool → Except PyErr Value
  | obj, [], _ => .ok obj
  | obj, a :: rest, fail =>
    match getattrV obj a with
    | some v => evalObjectAux v rest fail
    | none =>
      if isnumericChars a then .error .nameError
      else if fail then .error .attributeError
      else .ok (.str sentinel)

/-- Model of _evaluate_object(obj, path, fail) from evaluator.py. -/
def evaluate_object (obj : Value) (path : String) (fail : Bool) :
    Except PyErr Value :=
  evalObjectAux obj (splitDots path.data) fail

/-- Loop body of evaluate_keyords for one keyword: the direct-lookup branch
with its representability policy, then the dotted branch.  The dotted branch
reproduces the source call _evaluate_object(values[kw], path), which omits
the required positional argument fail and therefore raises TypeError as soon
as the base key is present. -/
def processKeyword (values : List (String × Value)) (fail : Bool)
    (ev : List (String × Value)) (keyword : String) :
    Except PyErr (List (String × Value)) :=
  let step : Except PyErr (List (String × Value)) :=
    match lookup values keyword with
    | some val =>
      match isinstanceRepresentable val with
      | .error e => .error e
      | .ok true => .ok (dinsert ev keyword val)
      | .ok false =>
        if fail then .error .valueError
        else .ok (dinsert ev keyword (.str sentinel))
    | none => .ok ev
  match step with
  | .error e => .error e
  | .ok ev1 =>
    if keyword.data.contains '.' = false then .ok ev1
    else
      match lookup values (String.mk (splitOnce keyword.data).1) with
      | none => .ok ev1
      | some _ => .error .typeError

def evalAux (values : List (String × Value)) (fail : Bool) :
    List String → List (String × Value) → Except PyErr (List (String × Value))
  | [], ev => .ok ev
  | k :: ks, ev =>
    match processKeyword values fail ev k with
    | .error e => .error e
    | .ok ev2 => evalAux values fail ks ev2

/-- Model of evaluate_keyords(keywords, values, fail) from evaluator.py. -/
def evaluate_keyords (keywords : List String) (values : List (String × Value))
    (fail : Bool) : Except PyErr (List (String × Value)) :=
  evalAux values fail keywords []

/-- Model of the closure returned by replace_keyword in the package root:
str(values.get(k, literal marker text)). -/
def replacement (ev : List (String × Value)) (k : String) : String :=
  match lookup ev k with
  | some v => pyStr v
  | none => "--" ++ k ++ "--"

/-- Model of re.sub on the pattern --(.*?)-- with the replace_keyword
closure: rewrite each match, copy every other character unchanged. -/
def resub (ev : List (String × Value)) : List Char → List Char
  | '-' :: '-' :: rest =>
    match h : scanClose rest with
    | some (n, r) => (replacement ev (String.mk n)).data ++ resub ev r
    | none => '-' :: resub ev ('-' :: rest)
  | c :: rest => c :: resub ev rest
  | [] => []
termination_by l => l.length
decreasing_by
  · have hb : ∀ (l2 n2 r2 : List Char),
        scanClose l2 = some (n2, r2) → r2.length < l2.length := by
      intro l2
      induction l2 using scanClose.induct with
      | case1 rest =>
        intro n2 r2 hs
        simp [scanClose] at hs
        simp [hs.2]
        omega
      | case2 rest =>
        intro n2 r2 hs
        simp [scanClose] at hs
      | case3 c rest hp1 hp2 ih =>
        intro n2 r2 hs
        rw [scanClose] at hs
        · rcases hrec : scanClose rest with _ | ⟨n3, r3⟩
          · rw [hrec] at hs; simp at hs
          · rw [hrec] at hs
            simp at hs
            have := ih n3 r3 hrec
            simp [← hs.2]
            omega
        · exact hp1
        · exact hp2
      | case4 => intro n2 r2 hs; simp [scanClose] at hs
    have := hb rest n r h
    simp
    omega
  · simp
  · simp

/-- Model of the body of resolve(template, values, fail) from the package
root: stringify the template, scan, evaluate, rewrite, and call the
template's type on the rewritten text.  This models the body alone, with
the misspelled import names repaired to the functions the source defines
(evaluate_keyords, parse_keywords); in the program as it stands the body is
unreachable, because importing the package raises ImportError — see
templarImport and resolveCall. -/
def resolve (template : Value) (values : List (String × Value))
    (fail : Bool) : Except PyErr Value :=
  let tstr := pyStr template
  match evaluate_keyords (parse_keywords tstr) values fail with
  | .error e => .error e
  | .ok ev => reconstruct (pyTypeOf template) (String.mk (resub ev tstr.data))

/-- Model of importing the templar package.  __init__.py executes
from .evaluator import ..., evaluate_keywords and
from .parser import parse_template, but the names defined by those modules
are evaluate_keyords and parse_keywords, so the import statement itself
raises ImportError and nothing in the package ever becomes callable. -/
def templarImport : Except PyErr Unit := .error .importError

/-- A call to templar.resolve through the package as it stands: the import
must succeed before the function can run, and it raises ImportError, so a
call never reaches the body of resolve and never returns a value. -/
def resolveCall (template : Value) (values : List (String × Value))
    (fail : Bool) : Except PyErr Value :=
  match templarImport with
  | .error e => .error e
  | .ok _ => resolve template values fail

/-- Whether a character list contains two adjacent dashes, i.e. an
occurrence of the delimiter sequence. -/
def containsMM : List Char → Bool
  | [] => false
  | [_] => false
  | c :: d :: rest => (c == '-' && d == '-') || containsMM (d :: rest)

/-- Whether a marker's entry in the resolved mapping is an actual resolved
value: present and not the fallback sentinel. -/
def resolvedEntry : Option Value → Bool
  | some (.str s) => !(s == sentinel)
  | some _ => true
  | none => false

/-- A template is fully resolvable by a value set when lenient evaluation
of its markers succeeds and every marker receives a non-sentinel entry. -/
def fullyResolvable (t : Value) (values : List (String × Value)) : Bool :=
  match evaluate_keyords (parse_keywords (pyStr t)) values false with
  | .ok ev => (parse_keywords (pyStr t)).all (fun k => resolvedEntry (lookup ev k))
  | .error _ => false

theorem containsMM_tail (c : Char) (l : List Char)
    (h : containsMM (c :: l) = false) : containsMM l = false := by
  cases l with
  | nil => rfl
  | cons d t =>
    rw [containsMM] at h
    simp at h
    exact h.2

theorem scanClose_none_of_noMM :
    ∀ (l : List Char), containsMM l = false → scanClose l = none := by
  intro l
  induction l using scanClose.induct with
  | case1 rest => intro h; simp [containsMM] at h
  | case2 rest => intro h; simp [scanClose]
  | case3 c rest h1 h2 ih =>
    intro h
    rw [scanClose]
    · rw [ih (containsMM_tail c rest h)]
      rfl
    · exact h1
    · exact h2
  | case4 => intro h; simp [scanClose]

theorem findall_noMM :
    ∀ (l : List Char), containsMM l = false → findall l = [] := by
  intro l
  induction l using findall.induct with
  | case1 rest hscan => intro h; simp [containsMM] at h
  | case2 rest hscan ih => intro h; simp [containsMM] at h
  | case3 c rest h1 ih =>
    intro h
    rw [findall]
    · exact ih (containsMM_tail c rest h)
    · intro r hc hr
      exact h1 r hc hr
  | case4 => simp [findall]

theorem findall_dash :
    ∀ (w : List Char), containsMM w = false → findall ('-' :: w) = [] := by
  intro w
  induction w with
  | nil => intro _; simp [findall]
  | cons c w ih =>
    intro h
    by_cases hc : c = '-'
    · subst hc
      have hw : containsMM w = false := containsMM_tail _ _ h
      rw [findall]
      rw [scanClose_none_of_noMM w hw]
      exact ih hw
    · rw [findall]
      · exact findall_noMM (c :: w) h
      · intro r h1 h2
        injection h2 with h3 _
        exact hc h3

theorem findall_dangling (w : List Char) (h : containsMM w = false) :
    findall ('-' :: '-' :: w) = [] := by
  rw [findall]
  rw [scanClose_none_of_noMM w h]
  exact findall_dash w h

theorem scanClose_append :
    ∀ (l r : List Char), '-' ∉ l → '\n' ∉ l →
      scanClose (l ++ '-' :: '-' :: r) = some (l, r) := by
  intro l
  induction l with
  | nil => intro r _ _; simp [scanClose]
  | cons c t ih =>
    intro r hd hn
    have hc : c ≠ '-' := fun h => hd (h ▸ List.mem_cons_self c t)
    have hcn : c ≠ '\n' := fun h => hn (h ▸ List.mem_cons_self c t)
    rw [List.cons_append, scanClose]
    · rw [ih r (fun h => hd (List.mem_cons_of_mem c h))
          (fun h => hn (List.mem_cons_of_mem c h))]
      rfl
    · intro r2 h1 h2
      exact hc h1
    · exact hcn

theorem findall_single (k : List Char) (hd : '-' ∉ k) (hn : '\n' ∉ k) :
    findall ('-' :: '-' :: (k ++ ['-', '-'])) = [k] := by
  rw [findall]
  have := scanClose_append k [] hd hn
  simp at this
  rw [this]
  simp [findall]

theorem resub_noMarkers (ev : List (String × Value)) :
    ∀ (l : List Char), findall l = [] → resub ev l = l := by
  intro l
  induction l using resub.induct ev with
  | case1 rest n r hscan ih =>
    intro h
    rw [findall] at h
    rw [hscan] at h
    simp at h
  | case2 rest hscan ih =>
    intro h
    rw [findall] at h
    rw [hscan] at h
    rw [resub]
    rw [hscan]
    rw [ih h]
  | case3 c rest h1 ih =>
    intro h
    rw [findall] at h
    · rw [resub]
      · rw [ih h]
      · intro r hc hr
        exact h1 r hc hr
    · intro r hc hr
      exact h1 r hc hr
  | case4 =>
    intro _
    simp [resub]

theorem resub_single (ev : List (String × Value)) (k : List Char)
    (hd : '-' ∉ k) (hn : '\n' ∉ k) :
    resub ev ('-' :: '-' :: (k ++ ['-', '-'])) =
      (replacement ev (String.mk k)).data := by
  rw [resub]
  have := scanClose_append k [] hd hn
  simp at this
  rw [this]
  simp [resub]

theorem marker_data (k : String) :
    ("--" ++ k ++ "--").data = '-' :: '-' :: (k.data ++ ['-', '-']) := by
  rw [String.data_append, String.data_append]
  rfl

theorem parse_single (k : String) (hd : '-' ∉ k.data) (hn : '\n' ∉ k.data) :
    parse_keywords ("--" ++ k ++ "--") = [k] := by
  rw [parse_keywords, marker_data, findall_single k.data hd hn]
  rfl

theorem resolve_noMarkers (s : String) (values : List (String × Value))
    (fail : Bool) (h : findall s.data = []) :
    resolve (.str s) values fail = .ok (.str s) := by
  rw [resolve]
  have hp : parse_keywords (pyStr (.str s)) = [] := by
    rw [pyStr, parse_keywords, h]
    rfl
  rw [hp]
  show reconstruct (pyTypeOf (Value.str s)) (String.mk (resub [] (pyStr (Value.str s)).data)) =
    Except.ok (Value.str s)
  rw [show pyStr (Value.str s) = s from rfl]
  rw [resub_noMarkers [] s.data h]
  rfl

theorem resolve_single (k : String) (values ev : List (String × Value))
    (fail : Bool) (hd : '-' ∉ k.data) (hn : '\n' ∉ k.data)
    (hev : evaluate_keyords [k] values fail = .ok ev) :
    resolve (.str ("--" ++ k ++ "--")) values fail =
      .ok (.str (replacement ev k)) := by
  rw [resolve]
  rw [show pyStr (.str ("--" ++ k ++ "--")) = "--" ++ k ++ "--" from rfl]
  rw [parse_single k hd hn]
  rw [hev]
  show reconstruct (pyTypeOf (Value.str ("--" ++ k ++ "--")))
      (String.mk (resub ev (pyStr (Value.str ("--" ++ k ++ "--"))).data)) =
    Except.ok (Value.str (replacement ev k))
  rw [show pyStr (Value.str ("--" ++ k ++ "--")) = "--" ++ k ++ "--" from rfl]
  rw [marker_data k]
  rw [resub_single ev k.data hd hn]
  rfl

theorem splitDots_noDot :
    ∀ (l : List Char), '.' ∉ l → splitDots l = [l] := by
  intro l
  induction l with
  | nil => intro _; rfl
  | cons c t ih =>
    intro h
    have hc : c ≠ '.' := fun hc => h (hc ▸ List.mem_cons_self c t)
    rw [splitDots]
    · rw [ih (fun hm => h (List.mem_cons_of_mem c hm))]
    · exact hc

theorem scanClose_decomp :
    ∀ (l n r : List Char), scanClose l = some (n, r) →
      l = n ++ '-' :: '-' :: r := by
  intro l
  induction l using scanClose.induct with
  | case1 rest =>
    intro n r h
    simp [scanClose] at h
    obtain ⟨hn, hr⟩ := h
    subst hn
    subst hr
    rfl
  | case2 rest => intro n r h; simp [scanClose] at h
  | case3 c rest h1 h2 ih =>
    intro n r h
    rw [scanClose] at h
    · rcases hrec : scanClose rest with _ | ⟨n2, r2⟩
      · rw [hrec] at h; simp at h
      · rw [hrec] at h
        simp at h
        obtain ⟨hn, hr⟩ := h
        subst hn
        subst hr
        rw [ih n2 r2 hrec]
        rfl
    · exact h1
    · exact h2
  | case4 => intro n r h; simp [scanClose] at h

theorem resub_empty : ∀ (l : List Char), resub [] l = l := by
  intro l
  induction l using resub.induct [] with
  | case1 rest n r hscan ih =>
    rw [resub, hscan]
    show (replacement [] (String.mk n)).data ++ resub [] r = '-' :: '-' :: rest
    rw [ih]
    rw [scanClose_decomp rest n r hscan]
    rw [show replacement [] (String.mk n) = "--" ++ String.mk n ++ "--" from
      rfl]
    rw [marker_data]
    simp
  | case2 rest hscan ih =>
    rw [resub, hscan]
    show '-' :: resub [] ('-' :: rest) = '-' :: '-' :: rest
    rw [ih]
  | case3 c rest h1 ih =>
    rw [resub]
    · rw [ih]
    · intro r hc hr
      exact h1 r hc hr
  | case4 => rw [resub]

theorem processKeyword_ok (values : List (String × Value)) (fail : Bool)
    (ev ev2 : List (String × Value)) (k : String)
    (h : processKeyword values fail ev k = .ok ev2) : ev2 = ev := by
  rcases hl : lookup values k with _ | val
  · by_cases hdot : ('.') ∈ k.data
    · rcases hb : lookup values (String.mk (splitOnce k.data).1) with _ | w
      · simp [processKeyword, hl, hdot, hb] at h
        exact h.symm
      · simp [processKeyword, hl, hdot, hb] at h
    · simp [processKeyword, hl, hdot] at h
      exact h.symm
  · simp [processKeyword, hl, isinstanceRepresentable] at h

theorem evaluate_ok_nil (values : List (String × Value)) (fail : Bool) :
    ∀ (ks : List String) (ev0 ev : List (String × Value)),
      evalAux values fail ks ev0 = .ok ev → ev = ev0 := by
  intro ks
  induction ks with
  | nil =>
    intro ev0 ev h
    simp [evalAux] at h
    exact h.symm
  | cons k ks ih =>
    intro ev0 ev h
    rw [evalAux] at h
    rcases hp : processKeyword values fail ev0 k with e | ev1
    · rw [hp] at h; simp at h
    · rw [hp] at h
      exact (ih ev1 ev h).trans (processKeyword_ok values fail ev0 ev1 k hp)

theorem resolve_text_ok_id (t : String) (values : List (String × Value))
    (fail : Bool) (u : Value)
    (h : resolve (.str t) values fail = .ok u) : u = .str t := by
  simp only [resolve] at h
  rcases hE : evaluate_keyords (parse_keywords (pyStr (.str t))) values fail
    with e | ev
  · rw [hE] at h; simp at h
  · rw [hE] at h
    have hnil : ev = [] := evaluate_ok_nil values fail _ [] ev hE
    subst hnil
    have h2 : reconstruct (pyTypeOf (Value.str t))
        (String.mk (resub [] (pyStr (Value.str t)).data)) = Except.ok u := h
    rw [show pyStr (Value.str t) = t from rfl] at h2
    rw [resub_empty t.data] at h2
    simp [reconstruct, pyTypeOf] at h2
    exact h2.symm

/-- C1: evaluation of the code at a failing input for the claim that
resolve with fail=false never raises.  For the template "--a.b--" and a
value set binding a, the dotted branch of evaluate_keyords calls
_evaluate_object without its required positional argument fail, so the
call raises TypeError even though fail is false and no result is
returned. -/
theorem c1_lenient_resolve_raises :
    resolve (.str ("--a.b--")) [("a", .list [])] false = .error .typeError := by
  simp [resolve, pyStr, parse_keywords, findall, scanClose, evaluate_keyords,
    evalAux, processKeyword, lookup, splitOnce, List.dedup]

/-- C2: evaluation of the code at the spec scenario.  The template
"Hello --name--, you have --count-- --item.0--" with name Ada, count 3 and
item a two-element list raises TypeError in every set-iteration order — the
direct matches name and count raise at isinstance on the PEP 695 alias, and
item.0 raises at the _evaluate_object call missing its required fail
argument — instead of returning the advertised text. -/
theorem c2_scenario_raises :
    resolve (.str ("Hello --name--, you have --count-- --item.0--"))
      [("name", .str ("Ada")), ("count", .int 3),
       ("item", .list [.str ("apples"), .str ("pears")])] false
      = .error .typeError := by
  simp [resolve, pyStr, parse_keywords, findall, scanClose, evaluate_keyords,
    evalAux, processKeyword, lookup, splitOnce, dinsert,
    isinstanceRepresentable, List.dedup]

/-- C5: evaluation of the code at a failing input for the overwrite claim.
With values binding both the dotted literal key a.b and the base a, the
direct match for a.b raises TypeError at isinstance on the PEP 695 alias
(and the dotted branch, whose _evaluate_object call omits its required fail
argument, would raise TypeError as well), so evaluation returns no mapping
and nothing is ever overwritten by a path result. -/
theorem c5_overwrite_crashes :
    evaluate_keyords [("a.b")]
      [("a.b", .str ("direct")), ("a", .obj [("b", .str ("y"))])] false
      = .error .typeError := by
  simp [evaluate_keyords, evalAux, processKeyword, lookup, dinsert,
    isinstanceRepresentable, splitOnce]

/-- C3 counterexample: no call through the package returns a value at all —
at the marker-free text template x, where the claim promises the input
back, the call raises ImportError — and even granting the repaired import
wiring the body does not preserve a mapping template: reconstruction of
the empty dict from its text form raises ValueError. -/
theorem c3_counterexample :
    resolveCall (.str ("x")) [] false = .error .importError ∧
    resolveCall (.str ("x")) [] false ≠ .ok (.str ("x")) ∧
    resolve (.dict []) [] false = .error .valueError := by
  refine ⟨rfl, by simp [resolveCall, templarImport], ?_⟩
  simp [resolve, pyStr, pyRepr, pyReprPairs, parse_keywords, findall,
    scanClose, evaluate_keyords, evalAux, resub, reconstruct, pyTypeOf,
    List.dedup, String.intercalate]

/-- C3 (amended): resolve never returns a value of any type: importing the
package raises ImportError (the import statements name evaluate_keywords
and parse_template, which the modules do not define), so no call, for any
template, value set or fail setting, observes any type preservation. -/
theorem c3_resolve_never_returns (template : Value)
    (values : List (String × Value)) (fail : Bool) :
    resolveCall template values fail = .error .importError := rfl

/-- C4 counterexample: the representability check is not applied to
path-evaluated values.  For the marker a.b with a bound to an object whose
attribute b is a list (not representable), evaluation raises TypeError (the
path call omits its fail argument) under both fail settings: with fail=true
there is no ValueError, and with fail=false no sentinel entry is produced
(no resolved mapping exists at all). -/
theorem c4_counterexample :
    evaluate_keyords [("a.b")] [("a", .obj [("b", .list [])])] true
      = .error .typeError ∧
    evaluate_keyords [("a.b")] [("a", .obj [("b", .list [])])] false
      = .error .typeError := by
  constructor <;>
    simp [evaluate_keyords, evalAux, processKeyword, lookup, splitOnce]

/-- C4 (amended): neither resolution route implements the claimed
representability policy observably.  A direct lookup raises TypeError at
isinstance(val, Representable) — the PEP 695 alias is not a valid second
argument to isinstance — for every bound value, representable or not, and
under either fail setting, before any ValueError or sentinel could be
produced; the dotted route raises TypeError from the call that omits its
fail argument.  No NotRepresentable error and no sentinel entry ever
arises. -/
theorem c4_direct_lookup_raises (k : String)
    (values : List (String × Value)) (v : Value) (fail : Bool)
    (hk : lookup values k = some v) :
    evaluate_keyords [k] values fail = .error .typeError := by
  simp [evaluate_keyords, evalAux, processKeyword, hk,
    isinstanceRepresentable]

/-- C4 witness: a marker bound to a list raises TypeError under fail=true,
where the claim expects a NotRepresentable ValueError. -/
theorem c4_direct_lookup_raises_witness :
    lookup [("x", .list [])] ("x") = some (.list []) ∧
    evaluate_keyords [("x")] [("x", .list [])] true = .error .typeError :=
  ⟨rfl, c4_direct_lookup_raises ("x") [("x", .list [])] (.list []) true rfl⟩

/-- C6: the marker scanner is non-greedy and set-valued, and a dangling
opening delimiter yields no match.  The input with four interior dashes
yields the names a and b (not one long name); a repeated marker name
collapses to a single entry; a trailing opening delimiter after a complete
marker adds no match; every scan result is free of duplicates; and a text
consisting of an opening delimiter followed by characters containing no
further delimiter pair produces no match. -/
theorem c6_scanner :
    parse_keywords ("--a----b--") = ["a", "b"] ∧
    parse_keywords ("--a----a--") = ["a"] ∧
    parse_keywords ("--a----") = ["a"] ∧
    (∀ s : String, (parse_keywords s).Nodup) ∧
    (∀ w : String, containsMM w.data = false →
      parse_keywords ("--" ++ w) = []) := by
  refine ⟨?_, ?_, ?_, ?_, ?_⟩
  · simp [parse_keywords, findall, scanClose, List.dedup]
  · simp [parse_keywords, findall, scanClose, List.dedup]
  · simp [parse_keywords, findall, scanClose, List.dedup]
  · intro s
    exact List.nodup_dedup _
  · intro w hw
    rw [parse_keywords, String.data_append]
    rw [show ("--").data ++ w.data = '-' :: '-' :: w.data from rfl]
    rw [findall_dangling w.data hw]
    rfl

/-- C6 witness: the dangling-marker clause at the concrete text ab. -/
theorem c6_scanner_witness :
    containsMM ("ab").data = false ∧ parse_keywords ("--" ++ "ab") = [] :=
  ⟨rfl, c6_scanner.2.2.2.2 ("ab") rfl⟩

/-- C7 counterexample: the output-level half of the claim is not the
program's behaviour — a call on a template carrying the dotted marker
--a.b-- raises ImportError (the package does not import) rather than
returning the template with the literal marker preserved. -/
theorem c7_counterexample :
    resolveCall (.str ("--a.b--")) [("c", .int 1)] false
      = .error .importError ∧
    resolveCall (.str ("--a.b--")) [("c", .int 1)] false
      ≠ .ok (.str ("--a.b--")) :=
  ⟨rfl, by simp [resolveCall, templarImport]⟩

/-- C7 (amended): for a dotted marker whose full name is not a key and
whose base is not a key, lenient evaluation produces no entry at all for
that marker in the resolved mapping — distinct from an entry set to the
sentinel.  The claimed consequence for the rendered output, the literal
--a.b-- text surviving, is unobservable: importing the package raises
ImportError before resolve can run; granting the repaired import wiring,
the absent entry would make the substitution re-insert the literal marker
text. -/
theorem c7_no_mapping_entry (name : String)
    (values : List (String × Value))
    (hdot : ('.') ∈ name.data)
    (hfull : lookup values name = none)
    (hbase : lookup values (String.mk (splitOnce name.data).1) = none) :
    evaluate_keyords [name] values false = .ok [] := by
  simp [evaluate_keyords, evalAux, processKeyword, hfull, hbase, hdot]

/-- C7 witness: the marker a.b with a value set containing only the
unrelated key c gets no entry in the resolved mapping. -/
theorem c7_no_mapping_entry_witness :
    evaluate_keyords [("a.b")] [("c", .int 1)] false = .ok [] :=
  c7_no_mapping_entry ("a.b") [("c", .int 1)] (by decide) rfl rfl

/-- C8 counterexample: at the program level a round trip never produces
values — at the fully resolvable (marker-free) sequence template the call
raises ImportError — and even granting the repaired import wiring the
round trip differs from the single resolution there, because a sequence
template is rebuilt as the character list of its text form on every
pass. -/
theorem c8_counterexample :
    resolveCall (.list []) [] false = .error .importError ∧
    fullyResolvable (.list []) [] = true ∧
    (resolve (.list []) [] false).bind (fun u => resolve u [] false) ≠
      resolve (.list []) [] false := by
  refine ⟨rfl, ?_, ?_⟩
  · simp [fullyResolvable, pyStr, pyRepr, pyReprList, parse_keywords,
      findall, scanClose, evaluate_keyords, evalAux, List.dedup,
      String.intercalate]
  · have hA : resolve (.list []) [] false
        = .ok (.list [.str ("["), .str ("]")]) := by
      simp [resolve, pyStr, pyRepr, pyReprList, parse_keywords, findall,
        scanClose, evaluate_keyords, evalAux, resub, reconstruct, pyTypeOf,
        List.dedup, String.intercalate]
      exact ⟨rfl, rfl⟩
    intro hcontra
    rw [hA] at hcontra
    have hc2 : resolve (.list [.str ("["), .str ("]")]) [] false
        = .ok (.list [.str ("["), .str ("]")]) := hcontra
    simp +decide [resolve, pyStr, pyRepr, pyReprList, pyQuote,
      parse_keywords, findall, scanClose, evaluate_keyords, evalAux, resub,
      reconstruct, pyTypeOf, List.dedup, String.intercalate,
      String.intercalate.go, String.singleton, String.data_append,
      String.data_push] at hc2

/-- C8 (amended): granting the repaired import wiring, a resolution of a
plain-text template that returns at all returns the template text
unchanged — the broken representability check turns every direct hit into
TypeError and a dotted hit raises likewise, so a successful evaluation
carries an empty resolved mapping and the substitution re-inserts every
marker literally — and therefore resolving the output again changes
nothing: the round trip equals the single resolution whenever the single
resolution succeeds.  At the program level even this is unobservable,
since every call raises ImportError. -/
theorem c8_idempotent_on_success (t : String)
    (values : List (String × Value)) (fail : Bool) (u : Value)
    (h : resolve (.str t) values fail = .ok u) :
    (resolve (.str t) values fail).bind (fun w => resolve w values fail) =
      resolve (.str t) values fail := by
  have hu : u = .str t := resolve_text_ok_id t values fail u h
  subst hu
  rw [h]
  exact h

/-- C8 witness: the marker-free text template hello resolves to itself and
the round trip equals the single resolution. -/
theorem c8_idempotent_on_success_witness :
    resolve (.str ("hello")) [] false = .ok (.str ("hello")) ∧
    (resolve (.str ("hello")) [] false).bind (fun w => resolve w [] false) =
      resolve (.str ("hello")) [] false := by
  have h : resolve (.str ("hello")) [] false = .ok (.str ("hello")) :=
    resolve_noMarkers ("hello") [] false (by simp [findall])
  exact ⟨h, c8_idempotent_on_success ("hello") [] false (.str ("hello")) h⟩

/-- C9: path traversal reads object attributes, never mapping keys.  For a
single-segment path s on a plain mapping that holds s as a key (and, as for
every modelled builtin container, has no attribute named s), traversal
fails at s — NameError for a numeric segment (the isintance typo),
AttributeError under fail, the sentinel otherwise — and in particular the
outcome never depends on the mapping's value for the key s. -/
theorem c9_traversal_ignores_mapping_keys (d : List (String × Value))
    (s : String) (fail : Bool) (w : Value)
    (hkey : lookup d s = some w) (hdot : ('.') ∉ s.data) :
    evaluate_object (.dict d) s fail =
      (if isnumericChars s.data then .error .nameError
       else if fail then .error .attributeError
       else .ok (.str sentinel)) := by
  rw [evaluate_object, splitDots_noDot s.data hdot]
  rw [show evalObjectAux (.dict d) [s.data] fail =
      (match getattrV (.dict d) s.data with
       | some v => evalObjectAux v [] fail
       | none =>
         if isnumericChars s.data then .error .nameError
         else if fail then .error .attributeError
         else .ok (.str sentinel)) from rfl]
  rfl

/-- C9 witness: a mapping holding the key x; traversal of the path x under
fail=false yields the sentinel, not the mapping's value 5 for the key. -/
theorem c9_traversal_ignores_mapping_keys_witness :
    lookup [("x", .int 5)] ("x") = some (.int 5) ∧
    evaluate_object (.dict [("x", .int 5)]) ("x") false
      = .ok (.str sentinel) :=
  ⟨rfl,
   (c9_traversal_ignores_mapping_keys [("x", .int 5)] ("x") false (.int 5)
     rfl (by decide)).trans rfl⟩

/-- C10: evaluation of the code at a failing input for the claim that a
marker directly bound to a boolean resolves without raising.  A call
through the package raises ImportError before anything runs; granting the
repaired import wiring, the direct lookup of the boolean raises TypeError
at isinstance(val, Representable) — the PEP 695 alias is rejected by
isinstance — under fail=true exactly as under fail=false, so the text True
is never substituted.  The intended membership test would have accepted
the bool as an int subclass: the claim describes the documented intent,
which the code cannot execute. -/
theorem c10_bool_marker_raises :
    resolveCall (.str ("--flag--")) [("flag", .bool true)] true
      = .error .importError ∧
    resolve (.str ("--flag--")) [("flag", .bool true)] true
      = .error .typeError ∧
    resolve (.str ("--flag--")) [("flag", .bool true)] false
      = .error .typeError := by
  refine ⟨rfl, ?_, ?_⟩ <;>
    simp [resolve, pyStr, parse_keywords, findall, scanClose,
      evaluate_keyords, evalAux, processKeyword, lookup,
      isinstanceRepresentable, List.dedup]
